import Mathlib

/-!
Verification of the MCVirt control-plane core: argument validators,
the permission model (`auth.py`), the session manager (`auth/session.py`)
and the VM-creation orchestrator (`virtual_machine/factory.py`).

Strings from the Python source are modelled as `List Char` where the
reasoning is character-by-character (hostnames, VM names) and as `String`
where only equality matters (usernames, group names, tokens).  A Python
function that can raise is modelled as returning `Except`; the particular
exception class is collapsed to `Unit` except in the orchestrator, whose
claims distinguish error classes.
-/

/-! ## Argument validators (`argument_validator.py`) -/

/-- A character accepted by the hostname grammar: the compiled pattern
`[^A-Z\d-]` with `re.IGNORECASE` finds any character other than an ASCII
letter, an ASCII digit or a hyphen. -/
def isAllowedHostChar (c : Char) : Bool :=
  ('A' ≤ c && c ≤ 'Z') || ('a' ≤ c && c ≤ 'z') || ('0' ≤ c && c ≤ '9') || c = '-'

/-- Models `disallowed.search(hostname)`: true when some character of the string is
outside the allowed class. -/
def disallowedSearch (s : List Char) : Bool :=
  s.any (fun c => ! isAllowedHostChar c)

/-- Models `ArgumentValidator.validate_hostname`: length in 1..255, no disallowed
character, neither `startswith('-')` nor `endswith('-')`; raises `TypeError`
(modelled as `Except.error ()`) on violation. -/
def validate_hostname (hostname : List Char) : Except Unit Unit :=
  if hostname.length > 255 ∨ hostname.length = 0 then .error ()
  else if disallowedSearch hostname then .error ()
  else if hostname.head? = some '-' ∨ hostname.getLast? = some '-' then .error ()
  else .ok ()

/-- Tests that an `Except` computation succeeded. -/
def isOkB {ε α : Type} : Except ε α → Bool
  | .ok _ => true
  | .error _ => false

/-- Boolean form of `validate_hostname`. -/
def hostnameOkB (s : List Char) : Bool := isOkB (validate_hostname s)

/-! ## `validate_drbd_resource` (`argument_validator.py`)

The pattern is `^mcvirt_vm-(.*)-disk-(\d+)$` matched with `re.match`.
`.` does not match a newline and `$` also matches just before one final
trailing newline; `.*` is greedy, so the first capture is the longest
middle part for which the rest of the string is `-disk-` followed by at
least one digit. -/

/-- An ASCII digit, the characters matched by `\d`. -/
def isDigitChar (c : Char) : Bool := '0' ≤ c && c ≤ '9'

/-- Whether splitting `rest` after `i` characters yields a match of
`(.*)-disk-(\d+)`: the first `i` characters (the first capture) contain no
newline, the next six characters are `-disk-`, and the remainder is a
non-empty run of digits (the second capture). -/
def drbdSplitOk (rest : List Char) (i : Nat) : Bool :=
  (rest.take i).all (fun c => c ≠ '\n') &&
  (rest.drop i).take 6 = "-disk-".toList &&
  (rest.drop i).drop 6 ≠ [] &&
  ((rest.drop i).drop 6).all isDigitChar

/-- Backtracking search for the greedy match of `(.*)-disk-(\d+)` against
`rest`, trying the longest first capture first. -/
def drbdTry (rest : List Char) : Nat → Option (List Char × List Char)
  | 0 => if drbdSplitOk rest 0 then some (rest.take 0, rest.drop 6) else none
  | i + 1 =>
      if drbdSplitOk rest (i + 1) then some (rest.take (i + 1), rest.drop (i + 1 + 6))
      else drbdTry rest i

/-- Models `valid_name.match(variable)` for `^mcvirt_vm-(.*)-disk-(\d+)$`: the two
captures when the string matches. -/
def drbdMatch (s : List Char) : Option (List Char × List Char) :=
  let s' := if s.getLast? = some '\n' then s.dropLast else s
  if s'.take 10 = "mcvirt_vm-".toList then drbdTry (s'.drop 10) (s'.drop 10).length
  else none

/-- Models `int(...)` on a run of ASCII digits. -/
def digitsToNat (ds : List Char) : Nat :=
  ds.foldl (fun acc c => acc * 10 + (c.toNat - '0'.toNat)) 0

/-- The source calls `ArgumentValidator.validate_hostname(result.groups(1))`:
`groups(1)` is the TUPLE of both captures, not the first capture.
`len(tuple)` is 2, so the length check passes, and then
`disallowed.search` applied to a tuple raises `TypeError` inside `re`. -/
def validate_hostname_on_groups (groups : List (List Char)) : Except Unit Unit :=
  if groups.length > 255 ∨ groups.length = 0 then .error ()
  else .error ()

/-- Models `ArgumentValidator.validate_drbd_resource`: match the pattern, validate
the hostname (actually the whole capture tuple, see
`validate_hostname_on_groups`), then bound the disk index by 1..99. -/
def validate_drbd_resource (s : List Char) : Except Unit Unit :=
  match drbdMatch s with
  | none => .error ()
  | some (host, num) =>
    match validate_hostname_on_groups [host, num] with
    | .error e => .error e
    | .ok _ =>
      if digitsToNat num < 1 ∨ 99 < digitsToNat num then .error () else .ok ()

/-! ## Permission model (`auth.py`)

The current user is represented by their username (the source obtains it
from `Auth.getUsername()`), the persisted global configuration by the
superuser list and a permission config, and a permission config — global
or per-VM — by an association list from group name to the users of the
group (a Python dict, so keys are unique; the embedding does not rely on
uniqueness). -/

/-- Models `Auth.PERMISSIONS`. -/
inductive PERMISSIONS
  | CHANGE_VM_POWER_STATE | CREATE_VM | MODIFY_VM | MANAGE_VM_USERS
  | VIEW_VNC_CONSOLE | CLONE_VM | DELETE_CLONE | MANAGE_HOST_NETWORKS
  | MANAGE_CLUSTER | MANAGE_DRBD | CAN_IGNORE_DRBD | MIGRATE_VM
  | DUPLICATE_VM | SET_VM_LOCK | BACKUP_VM
deriving DecidableEq

/-- Models `Auth.PERMISSION_GROUPS`: the static registry of permission groups. -/
def PERMISSION_GROUPS : List (String × List PERMISSIONS) :=
  [("user",
    [PERMISSIONS.CHANGE_VM_POWER_STATE,
     PERMISSIONS.VIEW_VNC_CONSOLE]),
   ("owner",
    [PERMISSIONS.CHANGE_VM_POWER_STATE,
     PERMISSIONS.MANAGE_VM_USERS,
     PERMISSIONS.VIEW_VNC_CONSOLE,
     PERMISSIONS.CLONE_VM,
     PERMISSIONS.DELETE_CLONE,
     PERMISSIONS.DUPLICATE_VM])]

/-- Models `Auth.isSuperuser`: the user is in the persisted superuser list or is
the hardcoded `root` identity. -/
def isSuperuser (username : String) (superusers : List String) : Bool :=
  superusers.contains username || username = "root"

/-- Models `Auth.checkPermissionInConfig`: scan the groups of a permission config
in order; raise (modelled as `Except.error ()` — the source's raise line
itself crashes on the out-of-scope name `vm_object`, but either way an
exception propagates) when a group is not in `PERMISSION_GROUPS`; return
`True` at the first group that contains the user and whose permission set
contains the requested permission. -/
def checkPermissionInConfig (cfg : List (String × List String)) (user : String)
    (p : PERMISSIONS) : Except Unit Bool :=
  match cfg with
  | [] => .ok false
  | (group, users) :: rest =>
    match PERMISSION_GROUPS.lookup group with
    | none => .error ()
    | some perms =>
      if users.contains user && perms.contains p then .ok true
      else checkPermissionInConfig rest user p

/-- Models `Auth.checkPermission`: superusers always pass; otherwise consult the
global permission config, then — when a VM object was passed — the VM's
own permission config. -/
def checkPermission (username : String) (superusers : List String)
    (globalCfg : List (String × List String))
    (vmCfg : Option (List (String × List String)))
    (p : PERMISSIONS) : Except Unit Bool :=
  if isSuperuser username superusers then .ok true
  else
    match checkPermissionInConfig globalCfg username p with
    | .error e => .error e
    | .ok true => .ok true
    | .ok false =>
      match vmCfg with
      | some cfg =>
        (match checkPermissionInConfig cfg username p with
         | .error e => .error e
         | .ok b => .ok b)
      | none => .ok false

/-- Models `Auth.assertPermission`: `checkPermission`, raising when it returns
`False`. -/
def assertPermission (username : String) (superusers : List String)
    (globalCfg : List (String × List String))
    (vmCfg : Option (List (String × List String)))
    (p : PERMISSIONS) : Except Unit Bool :=
  match checkPermission username superusers globalCfg vmCfg p with
  | .error e => .error e
  | .ok true => .ok true
  | .ok false => .error ()

/-- Models `Auth.getUsersInPermissionGroup` restricted to one config: the group's
user list when the group is a key of the config, an exception otherwise. -/
def getUsersInPermissionGroup (cfg : List (String × List String))
    (group : String) : Except Unit (List String) :=
  match cfg.lookup group with
  | some users => .ok users
  | none => .error ()

/-- Models `config['permissions'][permission_group].append(username)`. -/
def addUserToConfig (cfg : List (String × List String)) (group username : String) :
    List (String × List String) :=
  cfg.map (fun gu => if gu.1 = group then (gu.1, gu.2 ++ [username]) else gu)

/-- The body of `Auth.addUserPermissionGroup` after its permission gate:
pick the scope's config (the VM's when a VM object was passed, the global
one otherwise), look the group up (raising when absent), append the user
unless already present, and raise on a duplicate unless
`ignore_duplicate`.  The cluster replication of the change touches no
state modelled here. -/
def addUserPermissionGroupBody (globalCfg : List (String × List String))
    (permission_group username : String)
    (vmCfg : Option (List (String × List String))) (ignore_duplicate : Bool) :
    Except Unit (List (String × List String)) :=
  let config := match vmCfg with | some c => c | none => globalCfg
  match getUsersInPermissionGroup config permission_group with
  | .error e => .error e
  | .ok users =>
    if users.contains username = false then
      .ok (addUserToConfig config permission_group username)
    else if ignore_duplicate = false then .error ()
    else .ok config

/-- Models `Auth.addUserPermissionGroup`: the gate
`if not (isSuperuser or (vm_object and assertPermission(MANAGE_VM_USERS, vm_object)
and permission_group == 'user'))` raises; note that `assertPermission`
itself raises when the permission is missing, and that Python's `and`
short-circuits, so without a VM object a non-superuser always fails. -/
def addUserPermissionGroup (actor : String) (superusers : List String)
    (globalCfg : List (String × List String))
    (permission_group username : String)
    (vmCfg : Option (List (String × List String))) (ignore_duplicate : Bool) :
    Except Unit (List (String × List String)) :=
  if isSuperuser actor superusers then
    addUserPermissionGroupBody globalCfg permission_group username vmCfg ignore_duplicate
  else
    match vmCfg with
    | none => .error ()
    | some cfg =>
      match assertPermission actor superusers globalCfg (some cfg)
          PERMISSIONS.MANAGE_VM_USERS with
      | .error e => .error e
      | .ok _ =>
        if permission_group = "user" then
          addUserPermissionGroupBody globalCfg permission_group username vmCfg
            ignore_duplicate
        else .error ()

/-- Every group name referenced by the permission config exists in the
static `PERMISSION_GROUPS` registry. -/
def wellFormedCfg (cfg : List (String × List String)) : Bool :=
  cfg.all (fun gu => (PERMISSION_GROUPS.lookup gu.1).isSome)

/-- Some group of the config contains the user and carries the
permission. -/
def configGrantsB (cfg : List (String × List String)) (user : String)
    (p : PERMISSIONS) : Bool :=
  cfg.any (fun gu =>
    match PERMISSION_GROUPS.lookup gu.1 with
    | some perms => gu.2.contains user && perms.contains p
    | none => false)

/-- Lifts `configGrantsB` to the optional per-VM config. -/
def optGrantsB (v : Option (List (String × List String))) (user : String)
    (p : PERMISSIONS) : Bool :=
  match v with
  | some cfg => configGrantsB cfg user p
  | none => false

/-! ## Session manager (`auth/session.py`)

`Session.USER_SESSIONS` is a dict from session token to `SessionInfo`; it
is modelled as an association list whose keys a dict keeps unique
(deletion is by key, so the embedding filters every entry with the key).
`time.time()` is passed in as `now`, `SessionInfo.get_timeout()` as
`timeout`. -/

/-- Models `SessionInfo`: stored username and expiry — an absolute time, or
`none` for the Python `False` of non-expiring user classes. -/
structure SessionInfo where
  username : String
  expires : Option Nat
deriving DecidableEq

/-- Models `SessionInfo.is_valid`: a session with an expiry is valid while the
expiry lies in the future; a non-expiring session is always valid. -/
def SessionInfo.is_valid (s : SessionInfo) (now : Nat) : Bool :=
  match s.expires with
  | some e => now < e
  | none => true

/-- Models `SessionInfo.renew`: push the expiry forward by the timeout when the
session expires at all. -/
def SessionInfo.renew (s : SessionInfo) (timeout : Nat) : SessionInfo :=
  match s.expires with
  | some e => { s with expires := some (e + timeout) }
  | none => s

/-- In-place mutation of the dict entry under `token`. -/
def updateToken (tbl : List (String × SessionInfo)) (token : String)
    (info : SessionInfo) : List (String × SessionInfo) :=
  tbl.map (fun kv => if kv.1 = token then (kv.1, info) else kv)

/-- Models `del Session.USER_SESSIONS[session]`. -/
def deleteToken (tbl : List (String × SessionInfo)) (token : String) :
    List (String × SessionInfo) :=
  tbl.filter (fun kv => kv.1 ≠ token)

/-- Models `Session.authenticate_session`: succeed — renewing the session and
returning the user identity for the stored username — only when a session
is stored under the token, its username matches, and it is still valid;
delete a found-but-expired session, and raise `AuthenticationError`
(modelled as `Except.error ()`) in every non-success case.  The result
pairs the outcome with the session table after the call. -/
def authenticate_session (tbl : List (String × SessionInfo))
    (username token : String) (now timeout : Nat) :
    Except Unit String × List (String × SessionInfo) :=
  match tbl.lookup token with
  | some info =>
    if info.username = username then
      if info.is_valid now then
        (.ok username, updateToken tbl token (info.renew timeout))
      else
        (.error (), deleteToken tbl token)
    else (.error (), tbl)
  | none => (.error (), tbl)

/-- Errors of the session-resolution paths: `UserDoesNotExistException`,
`CurrentUserError`, and the `KeyError` of an unknown session id. -/
inductive SErr
  | userDoesNotExist
  | currentUserError
  | keyError
deriving DecidableEq

/-- A user as the user factory returns it: username plus the class flag
`allow_proxy_user`. -/
structure User where
  username : String
  allow_proxy_user : Bool
deriving DecidableEq

/-- Modelled from the spec: the user directory (`user_factory`, not part
of this slice) resolves a username to its user, raising
`UserDoesNotExistException` when no such user exists. -/
def get_user_by_username (users : List User) (username : String) :
    Except SErr User :=
  match users.find? (fun u => u.username = username) with
  | some u => .ok u
  | none => .error .userDoesNotExist

/-- The ambient `Pyro4.current_context`: the bound session id and the
requested proxy username, `none` standing for an absent or falsy
attribute. -/
structure PyroContext where
  session_id : Option String
  proxy_user : Option String
deriving DecidableEq

/-- Models `Session.get_current_user_object`: raise `CurrentUserError` without a
bound session id; otherwise look the session up (`USER_SESSIONS[...]`
raises `KeyError` when absent) and resolve its stored username. -/
def get_current_user_object (ctx : PyroContext)
    (tbl : List (String × SessionInfo)) (users : List User) :
    Except SErr User :=
  match ctx.session_id with
  | some sid =>
    (match tbl.lookup sid with
     | some info => get_user_by_username users info.username
     | none => .error .keyError)
  | none => .error .currentUserError

/-- Models `Session.get_proxy_user_object`: resolve the current user; when their
class allows proxying and the context carries a (truthy) proxy username,
try to resolve it, `pass`ing on `UserDoesNotExistException` to fall back
to the current user. -/
def get_proxy_user_object (ctx : PyroContext)
    (tbl : List (String × SessionInfo)) (users : List User) :
    Except SErr User :=
  match get_current_user_object ctx tbl users with
  | .error e => .error e
  | .ok current_user =>
    match ctx.proxy_user with
    | some proxy =>
      if current_user.allow_proxy_user && proxy ≠ "" then
        match get_user_by_username users proxy with
        | .ok u => .ok u
        | .error .userDoesNotExist => .ok current_user
        | .error e => .error e
      else .ok current_user
    | none => .ok current_user

/-! ## VM-creation orchestrator (`virtual_machine/factory.py`)

The persisted state that `Factory._create` reads and writes is the global
VM name list (`MCVirtConfig`'s `virtual_machines`), the set of existing VM
directories, and the written per-VM configuration records.  Collaborators
(`cluster`, `node_drbd`, `hard_drive_factory`, the local hostname) are
captured in an environment the call only reads.  The call returns the
state after the call together with the outcome, so that a post-commit
failure (a failing replication to a peer) leaves its partial state
visible. -/

/-- The modelled persisted state. -/
structure SysState where
  vm_names : List (List Char)
  vm_dirs : List (List Char)
  vm_configs : List (List Char)
deriving DecidableEq

/-- The arguments of `Factory._create`, with the Python `None` defaults
for the list-valued parameters already applied. -/
structure Args where
  name : List Char
  cpu_cores : Int
  memory_allocation : Int
  hard_drives : List Int
  network_interfaces : List (List Char)
  node : Option (List Char)
  available_nodes : List (List Char)
  storage_type : Option (List Char)
  hard_drive_driver : Option (List Char)
  graphics_driver : Option (List Char)
  modification_flags : List (List Char)

/-- The read-only collaborators of `Factory._create`. -/
structure Env where
  local_hostname : List Char
  cluster_nodes : List (List Char)
  cluster_disabled : Bool
  drbd_enabled : Bool
  cluster_size : Nat
  is_cluster_master : Bool
  storage_types : List (List Char)
  hard_drive_drivers : List (List Char)
  network_name_ok : List Char → Bool
  hdd_valid : Int → Option (List Char) → List (List Char) → Bool
  remote_create_ok : Bool

/-- The error classes `Factory._create` can raise. -/
inductive CreateErr
  | invalidName
  | alreadyExists
  | typeError
  | assertionError
  | keyError
  | invalidGraphicsDriver
  | clusterNotInitialised
  | drbdNotEnabled
  | dirExists
  | invalidNodes
  | nodeDoesNotExist
  | hddInvalid
  | remoteError
deriving DecidableEq

/-- Models `ArgumentValidator.validate_positive_integer` on a value that is an
integer: `str(int(value)) == str(value)` always holds for an integer, so
only the `int(value) < 1` check can raise. -/
def validate_positive_integer (v : Int) : Except Unit Unit :=
  if v < 1 then .error () else .ok ()

/-- Models `Factory.check_exists`: swallow the validator's error (the
`MCVirtTypeError` of the hostname grammar) and return `False`; otherwise
test membership in the cluster's VM name list (`getAllVmNames` with no
node reads `virtual_machines` from the global config). -/
def check_exists (vm_name : List Char) (st : SysState) : Bool :=
  match validate_hostname vm_name with
  | .error _ => false
  | .ok _ => st.vm_names.contains vm_name

/-- Models `Factory.checkName`: hostname grammar (re-raised as
`InvalidVirtualMachineNameException`), length at least 3, and — unless
`ignore_exists` — cluster-wide uniqueness. -/
def checkName (name : List Char) (st : SysState) (ignore_exists : Bool) :
    Except CreateErr Unit :=
  match validate_hostname name with
  | .error _ => .error .invalidName
  | .ok _ =>
    if name.length < 3 then .error .invalidName
    else if check_exists name st && !ignore_exists then .error .alreadyExists
    else .ok ()

/-- The values of the `GraphicsDriver` enum. -/
def graphicsDrivers : List (List Char) :=
  ["vga".toList, "cirrus".toList, "vmvga".toList, "xen".toList,
   "vbox".toList, "qxl".toList]

/-- Models `Factory.DEFAULT_GRAPHICS_DRIVER = GraphicsDriver.VMVGA.value`. -/
def DEFAULT_GRAPHICS_DRIVER : List Char := "vmvga".toList

/-- Applies `validate_hostname` to the optional `node` argument: absent means
unchecked. -/
def optHostnameOk : Option (List Char) → Bool
  | some n => hostnameOkB n
  | none => true

/-- The `assert storage_type in [None] + [...STORAGE_TYPES]` gate. -/
def storageTypeOk (stype : Option (List Char)) (types : List (List Char)) : Bool :=
  match stype with
  | some s => types.contains s
  | none => true

/-- The `HardDriveDriver[hard_drive_driver]` lookup, raising `KeyError` on
an unknown name; absent means unchecked. -/
def driverOk (driver : Option (List Char)) (drivers : List (List Char)) : Bool :=
  match driver with
  | some d => drivers.contains d
  | none => true

/-- The resolution of `available_nodes` (lines 250..257): when the caller
passed none, replicated storage defaults to every node of the cluster plus
the local node, local storage to the local node alone. -/
def resolveAvailableNodes (a : Args) (env : Env) : List (List Char) :=
  if a.available_nodes.length = 0 then
    if a.storage_type = some ("Drbd".toList)
    then env.cluster_nodes ++ [env.local_hostname]
    else [env.local_hostname]
  else a.available_nodes

/-- The input validators of `Factory._create` after the name gate (lines
195..218, in source order): positive integers for cpu, memory and every
hard-drive size, network names, hostnames for node and available nodes,
the storage-type assertion, the hard-drive driver lookup, and the graphics
driver check, with its default applied. -/
def resourceGates (a : Args) (env : Env) : Except CreateErr Unit :=
  match validate_positive_integer a.cpu_cores with
  | .error _ => .error .typeError
  | .ok _ =>
  match validate_positive_integer a.memory_allocation with
  | .error _ =>  .error .typeError
  | .ok _ =>
  if !(a.hard_drives.all fun hd => isOkB (validate_positive_integer hd)) then
    .error .typeError
  else if !(a.network_interfaces.all env.network_name_ok) then .error .typeError
  else if !(optHostnameOk a.node) then .error .typeError
  else if !(a.available_nodes.all hostnameOkB) then .error .typeError
  else if !(storageTypeOk a.storage_type env.storage_types) then
    .error .assertionError
  else if !(driverOk a.hard_drive_driver env.hard_drive_drivers) then
    .error .keyError
  else if !(graphicsDrivers.contains (a.graphics_driver.getD DEFAULT_GRAPHICS_DRIVER))
    then .error .invalidGraphicsDriver
  else .ok ()

/-- The cluster- and state-dependent gates of `Factory._create` (lines
222..241, in source order): cluster-readiness flag, the duplicate check,
Drbd enablement for replicated storage, and the directory-corruption
check. -/
def stateGates (a : Args) (env : Env) (st : SysState) : Except CreateErr Unit :=
  if env.cluster_disabled then .error .clusterNotInitialised
  else if check_exists a.name st then .error .alreadyExists
  else if a.storage_type = some ("Drbd".toList) && !env.drbd_enabled then
    .error .drbdNotEnabled
  else if st.vm_dirs.contains a.name then .error .dirExists
  else .ok ()

/-- The node-placement gates of `Factory._create` (lines 250..280, in
source order): replica count for replicated storage, cluster membership of
every available node, participation of the coordinating node, and the
hard-drive pre-flight check on the coordinator. -/
def nodeGates (a : Args) (env : Env) :
    Except CreateErr (List Char × List (List Char)) :=
  if a.storage_type = some ("Drbd".toList) &&
      (resolveAvailableNodes a env).length ≠ env.cluster_size then
    .error .invalidNodes
  else if !((resolveAvailableNodes a env).all fun n =>
      (env.cluster_nodes ++ [env.local_hostname]).contains n) then
    .error .nodeDoesNotExist
  else if !((resolveAvailableNodes a env).contains env.local_hostname) &&
      env.is_cluster_master then .error .invalidNodes
  else if env.is_cluster_master &&
      !(a.hard_drives.all fun sz =>
          env.hdd_valid sz a.storage_type
            ((resolveAvailableNodes a env).filter fun n => n ≠ env.local_hostname)) then
    .error .hddInvalid
  else .ok (a.node.getD env.local_hostname, resolveAvailableNodes a env)

/-- The gate phase of `Factory._create` (everything before the first side
effect, in source order): the name gate, then the three staged gate groups
above.  Returns the resolved target node and available-node set. -/
def gatesCheck (a : Args) (env : Env) (st : SysState) :
    Except CreateErr (List Char × List (List Char)) :=
  match checkName a.name st false with
  | .error e => .error e
  | .ok _ =>
  match resourceGates a env with
  | .error e => .error e
  | .ok _ =>
  match stateGates a env st with
  | .error e => .error e
  | .ok _ => nodeGates a env

/-- Models `Factory._create`: run every gate; on the first failure propagate it
with the state untouched.  Otherwise commit locally — create the VM
directory, append the name to the global VM name list, write the VM's
configuration record — and then, as cluster master, replicate the creation
to the peers, whose failure surfaces after the local commit.  The
registration, disk and network provisioning steps touch only collaborator
state outside this model. -/
def Factory_create (a : Args) (env : Env) (st : SysState) :
    SysState × Except CreateErr (List Char) :=
  match gatesCheck a env st with
  | .error e => (st, .error e)
  | .ok _ =>
    let st1 : SysState :=
      { vm_names := st.vm_names ++ [a.name]
        vm_dirs := st.vm_dirs ++ [a.name]
        vm_configs := st.vm_configs ++ [a.name] }
    if env.is_cluster_master && !env.remote_create_ok then (st1, .error .remoteError)
    else (st1, .ok a.name)

/-- The permission config of the VM used in the C9 witness: an empty
`user` group and `bob` as owner (`owner` carries `MANAGE_VM_USERS`). -/
def cfgC9 : List (String × List String) := [("user", []), ("owner", ["bob"])]

/-- The empty persisted state used by the orchestrator witnesses. -/
def stEmpty : SysState := SysState.mk [] [] []

/-- A one-peer environment used by the orchestrator witnesses: local node
`n1`, no peers, cluster initialised, Drbd enabled, replica size 2. -/
def envSimple : Env :=
  Env.mk ("n1".toList) [] false true 2 false ["Local".toList, "Drbd".toList] []
    (fun _ => true) (fun _ _ _ => true) true

/-- A replicated-storage creation request naming only one available node,
used by the C7 witness. -/
def argsC7 : Args :=
  Args.mk ("abc".toList) 1 512 [] [] none ["n1".toList] (some ("Drbd".toList))
    none none []

/-- A creation request whose name is two characters long, used by the C8
witness. -/
def argsC8 : Args :=
  Args.mk ("ab".toList) 1 512 [] [] none [] none none none []

/-! ## Theorems -/

/-- C1: `validate_hostname(s)` succeeds (returns rather than raising) iff
`1 ≤ len(s) ≤ 255`, every character of `s` is a letter, digit or hyphen,
and `s` neither starts nor ends with a hyphen. -/
theorem validate_hostname_spec (s : List Char) :
    validate_hostname s = .ok () ↔
      (1 ≤ s.length ∧ s.length ≤ 255 ∧ (∀ c ∈ s, isAllowedHostChar c = true) ∧
       s.head? ≠ some '-' ∧ s.getLast? ≠ some '-') := by
  unfold validate_hostname
  split
  · rename_i h
    constructor
    · intro habs; cases habs
    · rintro ⟨h1, h2, -, -, -⟩
      rcases h with h | h
      · omega
      · omega
  · rename_i hlen
    split
    · rename_i hdis
      constructor
      · intro habs; cases habs
      · rintro ⟨-, -, hall, -, -⟩
        unfold disallowedSearch at hdis
        rw [List.any_eq_true] at hdis
        obtain ⟨c, hc, hbad⟩ := hdis
        rw [hall c hc] at hbad
        simp at hbad
    · rename_i hdis
      split
      · rename_i hhyp
        constructor
        · intro habs; cases habs
        · rintro ⟨-, -, -, hh, hl⟩
          rcases hhyp with h | h
          · exact absurd h hh
          · exact absurd h hl
      · rename_i hhyp
        push_neg at hlen hhyp
        constructor
        · intro _
          refine ⟨by omega, by omega, ?_, hhyp.1, hhyp.2⟩
          intro c hc
          by_contra hbad
          apply hdis
          unfold disallowedSearch
          rw [List.any_eq_true]
          exact ⟨c, hc, by simp [hbad]⟩
        · intro _; rfl

/-- C2 (code bug): `mcvirt_vm-web01-disk-3` matches the resource pattern,
its embedded hostname `web01` passes `validate_hostname` and its disk
index 3 lies in 1..99, yet `validate_drbd_resource` raises: the source
passes `result.groups(1)` — the tuple of both captures — to
`validate_hostname`, whose `re.search` call raises `TypeError` on a tuple,
so every input that matches the pattern is rejected. -/
theorem validate_drbd_resource_rejects_valid_input :
    drbdMatch ("mcvirt_vm-web01-disk-3".toList) =
      some ("web01".toList, "3".toList) ∧
    validate_hostname ("web01".toList) = .ok () ∧
    digitsToNat ("3".toList) = 3 ∧
    validate_drbd_resource ("mcvirt_vm-web01-disk-3".toList) = .error () := by
  exact ⟨by decide, by rfl, by decide, by rfl⟩

/-- C3: for a user who is the hardcoded `root` identity or is listed in the
persisted superuser set, `checkPermission` returns `True` for every
permission and every (possibly absent) VM object, regardless of the global
and per-VM permission configs. -/
theorem checkPermission_superuser (u : String) (su : List String)
    (g : List (String × List String)) (v : Option (List (String × List String)))
    (p : PERMISSIONS) (h : u = "root" ∨ su.contains u = true) :
    checkPermission u su g v p = .ok true := by
  have hsu : isSuperuser u su = true := by
    unfold isSuperuser
    rcases h with h | h
    · subst h; simp
    · rw [h]; simp
  unfold checkPermission
  rw [hsu]
  simp

/-- Witness for C3. -/
theorem checkPermission_superuser_witness :
    ("root" = "root" ∨ ([] : List String).contains "root" = true) ∧
    checkPermission "root" [] [] none PERMISSIONS.CREATE_VM = .ok true :=
  ⟨Or.inl rfl,
   checkPermission_superuser "root" [] [] none PERMISSIONS.CREATE_VM (Or.inl rfl)⟩

/-- Counterexample for C4: `alice` is not a superuser, the consulted global
config references the group `badgroup`, which is absent from
`PERMISSION_GROUPS`, and yet `checkPermission` raises nothing — it returns
`True`, because the scan finds the granting `user` entry first.  This
refutes "raises an error exactly when the consulted permission
configuration references a group name absent from the registry". -/
theorem checkPermission_unknown_group_no_raise :
    isSuperuser "alice" [] = false ∧
    PERMISSION_GROUPS.lookup "badgroup" = none ∧
    ("badgroup" ∈
      ([("user", ["alice"]), ("badgroup", [])] :
        List (String × List String)).map Prod.fst) ∧
    checkPermission "alice" [] [("user", ["alice"]), ("badgroup", [])] none
      PERMISSIONS.CHANGE_VM_POWER_STATE = .ok true := by
  exact ⟨by decide, by decide, by decide, by rfl⟩

/-- Under a well-formed config the scan raises nothing and decides the
grant predicate. -/
theorem checkPermissionInConfig_wf (cfg : List (String × List String))
    (u : String) (p : PERMISSIONS) (h : wellFormedCfg cfg = true) :
    checkPermissionInConfig cfg u p = .ok (configGrantsB cfg u p) := by
  induction cfg with
  | nil => rfl
  | cons gu rest ih =>
    obtain ⟨group, users⟩ := gu
    simp only [wellFormedCfg, List.all_cons, Bool.and_eq_true] at h
    obtain ⟨hhead, hrest⟩ := h
    rw [Option.isSome_iff_exists] at hhead
    obtain ⟨perms, hperms⟩ := hhead
    have hrest' : wellFormedCfg rest = true := hrest
    simp only [checkPermissionInConfig, configGrantsB, List.any_cons]
    rw [hperms]
    dsimp only
    cases hc : users.contains u && perms.contains p with
    | true => simp
    | false =>
      simp only [Bool.false_or, Bool.false_eq_true, if_false]
      exact ih hrest'

/-- The scan raises only when the config is malformed. -/
theorem checkPermissionInConfig_error (cfg : List (String × List String))
    (u : String) (p : PERMISSIONS)
    (h : checkPermissionInConfig cfg u p = .error ()) :
    wellFormedCfg cfg = false := by
  induction cfg with
  | nil => cases h
  | cons gu rest ih =>
    obtain ⟨group, users⟩ := gu
    simp only [checkPermissionInConfig] at h
    simp only [wellFormedCfg, List.all_cons]
    cases hl : List.lookup group PERMISSION_GROUPS with
    | none => simp [hl]
    | some perms =>
      rw [hl] at h
      dsimp only at h
      cases hc : users.contains u && perms.contains p with
      | true => rw [hc] at h; simp at h
      | false =>
        rw [hc] at h
        simp only [Bool.false_eq_true, if_false] at h
        have := ih h
        simp only [wellFormedCfg] at this
        simp [this]

/-- C4 (amended): for a non-superuser, when every group name referenced by
the consulted configs exists in the static registry, `checkPermission`
raises nothing and returns exactly whether some consulted group containing
the user grants the permission (in particular `False`, not an exception,
when nothing grants it); and whenever `checkPermission` raises, some
consulted config references a group name absent from the registry. -/
theorem checkPermission_nonsuperuser_spec (u : String) (su : List String)
    (g : List (String × List String)) (v : Option (List (String × List String)))
    (p : PERMISSIONS) (hsu : isSuperuser u su = false) :
    (wellFormedCfg g = true → (∀ c, v = some c → wellFormedCfg c = true) →
      checkPermission u su g v p = .ok (configGrantsB g u p || optGrantsB v u p))
    ∧ (checkPermission u su g v p = .error () →
        wellFormedCfg g = false ∨ ∃ c, v = some c ∧ wellFormedCfg c = false) := by
  constructor
  · intro hg hv
    unfold checkPermission
    rw [hsu]
    simp only [Bool.false_eq_true, if_false]
    rw [checkPermissionInConfig_wf g u p hg]
    cases hb : configGrantsB g u p with
    | true => rfl
    | false =>
      dsimp only
      cases v with
      | none => rfl
      | some cfg =>
        dsimp only
        rw [checkPermissionInConfig_wf cfg u p (hv cfg rfl)]
        rfl
  · intro herr
    unfold checkPermission at herr
    rw [hsu] at herr
    simp only [Bool.false_eq_true, if_false] at herr
    cases hscan : checkPermissionInConfig g u p with
    | error e =>
      cases e
      exact Or.inl (checkPermissionInConfig_error g u p hscan)
    | ok b =>
      rw [hscan] at herr
      cases b with
      | true => simp at herr
      | false =>
        dsimp only at herr
        cases v with
        | none => simp at herr
        | some cfg =>
          dsimp only at herr
          cases hscan2 : checkPermissionInConfig cfg u p with
          | error e =>
            cases e
            exact Or.inr ⟨cfg, rfl, checkPermissionInConfig_error cfg u p hscan2⟩
          | ok b2 =>
            rw [hscan2] at herr
            simp at herr

/-- Witness for C4's amended theorem. -/
theorem checkPermission_nonsuperuser_spec_witness :
    isSuperuser "alice" [] = false ∧
    wellFormedCfg [("user", ["alice"])] = true ∧
    checkPermission "alice" [] [("user", ["alice"])] none
      PERMISSIONS.CREATE_VM = .ok false := by
  refine ⟨by decide, by decide, ?_⟩
  have h := (checkPermission_nonsuperuser_spec "alice" [] [("user", ["alice"])]
    none PERMISSIONS.CREATE_VM (by decide)).1 (by decide)
    (by intro c hc; cases hc)
  rw [h]
  rfl

/-- C9: for a non-superuser actor, `addUserPermissionGroup` fails for any
attempt to add a user to the `owner` group (whatever the scope), fails for
any attempt on the global scope (no VM object), and succeeds for an actor
holding `MANAGE_VM_USERS` on the VM when adding a not-yet-present user to
the VM's `user` group. -/
theorem addUserPermissionGroup_nonsuperuser_spec
    (actor : String) (su : List String) (g : List (String × List String))
    (pg un : String) (v : Option (List (String × List String))) (ign : Bool)
    (hns : isSuperuser actor su = false) :
    (pg = "owner" → isOkB (addUserPermissionGroup actor su g pg un v ign) = false)
    ∧ (v = none → isOkB (addUserPermissionGroup actor su g pg un v ign) = false)
    ∧ (∀ cfg users, v = some cfg → pg = "user" →
        checkPermission actor su g (some cfg) PERMISSIONS.MANAGE_VM_USERS = .ok true →
        getUsersInPermissionGroup cfg "user" = .ok users →
        users.contains un = false →
        addUserPermissionGroup actor su g pg un v ign =
          .ok (addUserToConfig cfg "user" un)) := by
  refine ⟨?_, ?_, ?_⟩
  · intro hpg
    subst hpg
    unfold addUserPermissionGroup
    rw [hns]
    simp only [Bool.false_eq_true, if_false]
    cases v with
    | none => rfl
    | some cfg =>
      dsimp only
      cases hap : assertPermission actor su g (some cfg) PERMISSIONS.MANAGE_VM_USERS with
      | error e => rfl
      | ok b =>
        dsimp only
        rw [if_neg (by decide : ¬ ("owner" : String) = "user")]
        rfl
  · intro hv
    subst hv
    unfold addUserPermissionGroup
    rw [hns]
    rfl
  · intro cfg users hv hpg hperm husers hnotin
    subst hv
    subst hpg
    unfold addUserPermissionGroup
    rw [hns]
    simp only [Bool.false_eq_true, if_false]
    have hap : assertPermission actor su g (some cfg) PERMISSIONS.MANAGE_VM_USERS
        = .ok true := by
      unfold assertPermission
      rw [hperm]
    rw [hap]
    dsimp only
    simp only [if_true]
    unfold addUserPermissionGroupBody
    dsimp only
    rw [husers]
    dsimp only
    rw [hnotin]
    simp

/-- Witness for C9. -/
theorem addUserPermissionGroup_nonsuperuser_spec_witness :
    isSuperuser "bob" [] = false ∧
    checkPermission "bob" [] [] (some cfgC9) PERMISSIONS.MANAGE_VM_USERS = .ok true ∧
    getUsersInPermissionGroup cfgC9 "user" = .ok [] ∧
    addUserPermissionGroup "bob" [] [] "user" "carol" (some cfgC9) false =
      .ok [("user", ["carol"]), ("owner", ["bob"])] := by
  refine ⟨by decide, by rfl, by rfl, ?_⟩
  have h := (addUserPermissionGroup_nonsuperuser_spec "bob" [] [] "user" "carol"
    (some cfgC9) false (by decide)).2.2 cfgC9 [] rfl rfl (by rfl) (by rfl) (by decide)
  rw [h]
  rfl

/-- A token deleted from the session table can no longer be looked up. -/
theorem lookup_deleteToken (tbl : List (String × SessionInfo)) (token : String) :
    (deleteToken tbl token).lookup token = none := by
  induction tbl with
  | nil => rfl
  | cons kv rest ih =>
    obtain ⟨k, v⟩ := kv
    unfold deleteToken at ih ⊢
    rw [List.filter_cons]
    by_cases hk : k = token
    · subst hk
      rw [if_neg (by simp)]
      exact ih
    · rw [if_pos (by simp [hk])]
      have hbeq : (token == k) = false := by
        simp only [beq_eq_false_iff_ne, ne_eq]
        exact fun h => hk h.symm
      simp [List.lookup, hbeq, ih]
      intro a b _ ha hta
      exact ha hta.symm

/-- C5: `authenticate_session` returns the user identity exactly when a
session is stored under the token with the given username and it has not
expired; a found-but-expired session is deleted before the failure, so a
second presentation of the same token — whatever the username — also
fails. -/
theorem authenticate_session_spec (tbl : List (String × SessionInfo))
    (username token : String) (now timeout : Nat) :
    ((authenticate_session tbl username token now timeout).1 = .ok username ↔
      ∃ info, tbl.lookup token = some info ∧ info.username = username ∧
        info.is_valid now = true)
    ∧ (∀ info, tbl.lookup token = some info → info.username = username →
        info.is_valid now = false →
        (authenticate_session tbl username token now timeout).1 = .error () ∧
        (authenticate_session tbl username token now timeout).2.lookup token = none ∧
        ∀ u2 now2 timeout2,
          (authenticate_session (authenticate_session tbl username token now timeout).2
            u2 token now2 timeout2).1 = .error ()) := by
  cases hl : tbl.lookup token with
  | none =>
    constructor
    · constructor
      · intro h
        unfold authenticate_session at h
        rw [hl] at h
        dsimp only at h
        cases h
      · rintro ⟨info, hinfo, -, -⟩
        cases hinfo
    · intro info hinfo
      cases hinfo
  | some info =>
    by_cases hu : info.username = username
    · by_cases hv : info.is_valid now = true
      · constructor
        · constructor
          · intro _
            exact ⟨info, rfl, hu, hv⟩
          · intro _
            unfold authenticate_session
            rw [hl]
            dsimp only
            rw [if_pos hu, if_pos hv]
        · intro info' hinfo' hu' hv'
          cases hinfo'
          rw [hv] at hv'
          cases hv'
      · have hv' : info.is_valid now = false := by
          cases hvb : info.is_valid now
          · rfl
          · exact absurd hvb hv
        have hres : authenticate_session tbl username token now timeout =
            (.error (), deleteToken tbl token) := by
          unfold authenticate_session
          rw [hl]
          dsimp only
          rw [if_pos hu]
          rw [hv']
          simp
        constructor
        · rw [hres]
          constructor
          · intro h; cases h
          · rintro ⟨info2, hinfo2, -, hvalid2⟩
            cases hinfo2
            rw [hv'] at hvalid2
            cases hvalid2
        · intro info' hinfo' hu2 hv2
          rw [hres]
          refine ⟨rfl, lookup_deleteToken tbl token, ?_⟩
          intro u2 now2 timeout2
          unfold authenticate_session
          rw [lookup_deleteToken tbl token]
    · constructor
      · constructor
        · intro h
          unfold authenticate_session at h
          rw [hl] at h
          dsimp only at h
          rw [if_neg hu] at h
          dsimp only at h
          cases h
        · rintro ⟨info2, hinfo2, hu2, -⟩
          cases hinfo2
          exact absurd hu2 hu
      · intro info' hinfo' hu2 hv2
        cases hinfo'
        exact absurd hu2 hu

/-- Witness for C5: a session expired at time 5 presented at time 10. -/
theorem authenticate_session_spec_witness :
    List.lookup "tok" [("tok", SessionInfo.mk "alice" (some 5))] =
      some (SessionInfo.mk "alice" (some 5)) ∧
    (SessionInfo.mk "alice" (some 5)).is_valid 10 = false ∧
    (authenticate_session [("tok", SessionInfo.mk "alice" (some 5))]
      "alice" "tok" 10 60).1 = .error () ∧
    (authenticate_session [("tok", SessionInfo.mk "alice" (some 5))]
      "alice" "tok" 10 60).2.lookup "tok" = none ∧
    (authenticate_session
      (authenticate_session [("tok", SessionInfo.mk "alice" (some 5))]
        "alice" "tok" 10 60).2 "alice" "tok" 11 60).1 = .error () := by
  have h := (authenticate_session_spec [("tok", SessionInfo.mk "alice" (some 5))]
    "alice" "tok" 10 60).2 (SessionInfo.mk "alice" (some 5)) (by rfl) rfl (by decide)
  exact ⟨by rfl, by decide, h.1, h.2.1, h.2.2 "alice" 11 60⟩

/-- C6: when the current user's class permits proxying and a proxy target
is supplied but does not exist in the user directory, the call silently
falls back to the current user; any failure of the current-user resolution
itself propagates unchanged. -/
theorem get_proxy_user_object_spec (ctx : PyroContext)
    (tbl : List (String × SessionInfo)) (users : List User) :
    (∀ cu proxy, get_current_user_object ctx tbl users = .ok cu →
        cu.allow_proxy_user = true → ctx.proxy_user = some proxy → proxy ≠ "" →
        get_user_by_username users proxy = .error .userDoesNotExist →
        get_proxy_user_object ctx tbl users = .ok cu)
    ∧ (∀ e, get_current_user_object ctx tbl users = .error e →
        get_proxy_user_object ctx tbl users = .error e) := by
  constructor
  · intro cu proxy hcu hallow hproxy hne hmissing
    unfold get_proxy_user_object
    rw [hcu]
    dsimp only
    rw [hproxy]
    dsimp only
    rw [if_pos (by simp [hallow, hne])]
    rw [hmissing]
  · intro e herr
    unfold get_proxy_user_object
    rw [herr]

/-- Witness for C6: `alice` may proxy, the context names the nonexistent
target `ghost`, and the call returns `alice`. -/
theorem get_proxy_user_object_spec_witness :
    get_current_user_object (PyroContext.mk (some "sid") (some "ghost"))
      [("sid", SessionInfo.mk "alice" none)] [User.mk "alice" true] =
      .ok (User.mk "alice" true) ∧
    get_user_by_username [User.mk "alice" true] "ghost" = .error .userDoesNotExist ∧
    get_proxy_user_object (PyroContext.mk (some "sid") (some "ghost"))
      [("sid", SessionInfo.mk "alice" none)] [User.mk "alice" true] =
      .ok (User.mk "alice" true) := by
  refine ⟨by rfl, by rfl, ?_⟩
  exact (get_proxy_user_object_spec (PyroContext.mk (some "sid") (some "ghost"))
    [("sid", SessionInfo.mk "alice" none)] [User.mk "alice" true]).1
    (User.mk "alice" true) "ghost" (by rfl) rfl rfl (by decide) (by rfl)

/-- A successful `checkName` implies grammar, length and uniqueness. -/
theorem checkName_ok_facts (name : List Char) (st : SysState)
    (h : checkName name st false = .ok ()) :
    validate_hostname name = .ok () ∧ ¬ name.length < 3 ∧
      check_exists name st = false := by
  unfold checkName at h
  cases hv : validate_hostname name with
  | error e => rw [hv] at h; cases h
  | ok u =>
    cases u
    rw [hv] at h
    dsimp only at h
    by_cases hlen : name.length < 3
    · rw [if_pos hlen] at h; cases h
    · rw [if_neg hlen] at h
      cases hce : check_exists name st with
      | true => rw [hce] at h; simp at h
      | false => exact ⟨rfl, hlen, rfl⟩

/-- A failing name gate fails `gatesCheck` with the same error. -/
theorem gatesCheck_error_of_checkName (a : Args) (env : Env) (st : SysState)
    (e : CreateErr) (h : checkName a.name st false = .error e) :
    gatesCheck a env st = .error e := by
  unfold gatesCheck
  rw [h]

/-- A successful `gatesCheck` passed the name gate. -/
theorem gatesCheck_ok_checkName (a : Args) (env : Env) (st : SysState)
    (r : List Char × List (List Char)) (h : gatesCheck a env st = .ok r) :
    checkName a.name st false = .ok () := by
  cases hc : checkName a.name st false with
  | ok u => cases u; rfl
  | error e =>
    unfold gatesCheck at h
    rw [hc] at h
    cases h

/-- Successful node gates of a replicated-storage request imply the
replica count matched. -/
theorem nodeGates_ok_replica (a : Args) (env : Env)
    (r : List Char × List (List Char)) (h : nodeGates a env = .ok r)
    (hdrbd : a.storage_type = some ("Drbd".toList)) :
    (resolveAvailableNodes a env).length = env.cluster_size := by
  unfold nodeGates at h
  repeat' (split at h)
  all_goals (try (cases h))
  all_goals simp_all

/-- A successful `gatesCheck` of a replicated-storage request passed the
replica-count gate. -/
theorem gatesCheck_ok_replica (a : Args) (env : Env) (st : SysState)
    (r : List Char × List (List Char)) (h : gatesCheck a env st = .ok r)
    (hdrbd : a.storage_type = some ("Drbd".toList)) :
    (resolveAvailableNodes a env).length = env.cluster_size := by
  unfold gatesCheck at h
  cases hc : checkName a.name st false with
  | error e => rw [hc] at h; cases h
  | ok u =>
    rw [hc] at h
    dsimp only at h
    cases hr : resourceGates a env with
    | error e => rw [hr] at h; cases h
    | ok u2 =>
      rw [hr] at h
      dsimp only at h
      cases hs : stateGates a env st with
      | error e => rw [hs] at h; cases h
      | ok u3 =>
        rw [hs] at h
        dsimp only at h
        exact nodeGates_ok_replica a env r h hdrbd

/-- C7: a replicated-storage creation whose resolved available-node count
differs from the backend's replica size fails without creating a
directory, touching the VM name list or writing a configuration record. -/
theorem create_drbd_replica_gate (a : Args) (env : Env) (st : SysState)
    (hdrbd : a.storage_type = some ("Drbd".toList))
    (hmis : (resolveAvailableNodes a env).length ≠ env.cluster_size) :
    (Factory_create a env st).1 = st ∧
      isOkB (Factory_create a env st).2 = false := by
  cases hg : gatesCheck a env st with
  | error e =>
    unfold Factory_create
    rw [hg]
    exact ⟨rfl, rfl⟩
  | ok r => exact absurd (gatesCheck_ok_replica a env st r hg hdrbd) hmis

/-- Witness for C7: one available node against a replica size of two. -/
theorem create_drbd_replica_gate_witness :
    argsC7.storage_type = some ("Drbd".toList) ∧
    (resolveAvailableNodes argsC7 envSimple).length ≠ envSimple.cluster_size ∧
    (Factory_create argsC7 envSimple stEmpty).1 = stEmpty ∧
    isOkB (Factory_create argsC7 envSimple stEmpty).2 = false := by
  have h := create_drbd_replica_gate argsC7 envSimple stEmpty (by rfl) (by decide)
  exact ⟨by rfl, by decide, h.1, h.2⟩

/-- A name failing the grammar, shorter than three characters, or already
taken fails `checkName`. -/
theorem checkName_fails (name : List Char) (st : SysState)
    (h : hostnameOkB name = false ∨ name.length < 3 ∨
      st.vm_names.contains name = true) :
    ∃ e, checkName name st false = .error e := by
  unfold checkName
  cases hv : validate_hostname name with
  | error e => exact ⟨.invalidName, rfl⟩
  | ok u =>
    cases u
    dsimp only
    by_cases hlen : name.length < 3
    · rw [if_pos hlen]
      exact ⟨.invalidName, rfl⟩
    · rw [if_neg hlen]
      have hcontains : st.vm_names.contains name = true := by
        rcases h with h | h | h
        · unfold hostnameOkB isOkB at h
          rw [hv] at h
          cases h
        · exact absurd h hlen
        · exact h
      have hce : check_exists name st = true := by
        unfold check_exists
        rw [hv]
        exact hcontains
      rw [if_pos (by rw [hce]; rfl)]
      exact ⟨.alreadyExists, rfl⟩

/-- A successful creation committed exactly the directory, name-list entry
and configuration record of the new VM. -/
theorem create_ok_parts (a : Args) (env : Env) (st : SysState) (x : List Char)
    (h : (Factory_create a env st).2 = .ok x) :
    (∃ r, gatesCheck a env st = .ok r) ∧
    (Factory_create a env st).1 =
      SysState.mk (st.vm_names ++ [a.name]) (st.vm_dirs ++ [a.name])
        (st.vm_configs ++ [a.name]) := by
  cases hg : gatesCheck a env st with
  | error e =>
    unfold Factory_create at h
    rw [hg] at h
    dsimp only at h
    cases h
  | ok r =>
    refine ⟨⟨r, rfl⟩, ?_⟩
    unfold Factory_create
    rw [hg]
    dsimp only
    split
    · rfl
    · rfl

/-- C8: the name gate rejects, without mutating state, any name failing
the hostname grammar, shorter than three characters, or already in the
cluster VM name list; and after a successful creation, a second creation
with the same name fails with the duplicate-name error. -/
theorem create_name_gate (a : Args) (env : Env) (st : SysState) :
    ((hostnameOkB a.name = false ∨ a.name.length < 3 ∨
        st.vm_names.contains a.name = true) →
      (Factory_create a env st).1 = st ∧
        isOkB (Factory_create a env st).2 = false)
    ∧ (∀ x, (Factory_create a env st).2 = .ok x →
        ∀ (a2 : Args) (env2 : Env), a2.name = a.name →
          (Factory_create a2 env2 (Factory_create a env st).1).2 =
            .error .alreadyExists) := by
  constructor
  · intro h
    obtain ⟨e, he⟩ := checkName_fails a.name st h
    have hg := gatesCheck_error_of_checkName a env st e he
    unfold Factory_create
    rw [hg]
    exact ⟨rfl, rfl⟩
  · intro x hok a2 env2 hname
    obtain ⟨⟨r, hg⟩, hstate⟩ := create_ok_parts a env st x hok
    have hcn := gatesCheck_ok_checkName a env st r hg
    obtain ⟨hval, hlen, -⟩ := checkName_ok_facts a.name st hcn
    rw [hstate]
    have hval2 : validate_hostname a2.name = .ok () := by
      rw [hname]
      exact hval
    have hce2 : check_exists a2.name
        (SysState.mk (st.vm_names ++ [a.name]) (st.vm_dirs ++ [a.name])
          (st.vm_configs ++ [a.name])) = true := by
      unfold check_exists
      rw [hval2]
      dsimp only
      rw [hname]
      simp [List.elem_iff]
    have hcn2 : checkName a2.name
        (SysState.mk (st.vm_names ++ [a.name]) (st.vm_dirs ++ [a.name])
          (st.vm_configs ++ [a.name])) false = .error .alreadyExists := by
      unfold checkName
      rw [hval2]
      dsimp only
      rw [if_neg (by rw [hname]; exact hlen)]
      rw [if_pos (by rw [hce2]; rfl)]
    have hg2 := gatesCheck_error_of_checkName a2 env2 _ _ hcn2
    unfold Factory_create
    rw [hg2]

/-- Witness for C8: a two-character name is rejected without effect. -/
theorem create_name_gate_witness :
    (hostnameOkB argsC8.name = false ∨ argsC8.name.length < 3 ∨
      stEmpty.vm_names.contains argsC8.name = true) ∧
    (Factory_create argsC8 envSimple stEmpty).1 = stEmpty ∧
    isOkB (Factory_create argsC8 envSimple stEmpty).2 = false := by
  have h := (create_name_gate argsC8 envSimple stEmpty).1
    (Or.inr (Or.inl (by decide)))
  exact ⟨Or.inr (Or.inl (by decide)), h.1, h.2⟩

/-- C10: `check_exists` returns `False` instead of propagating a hostname
validation failure, and returns `True` exactly when the name passes
validation and is present in the VM name list. -/
theorem check_exists_spec (s : List Char) (st : SysState) :
    (validate_hostname s = .error () → check_exists s st = false)
    ∧ (check_exists s st = true ↔
        validate_hostname s = .ok () ∧ s ∈ st.vm_names) := by
  cases hv : validate_hostname s with
  | error e =>
    cases e
    constructor
    · intro _
      unfold check_exists
      rw [hv]
    · constructor
      · intro h
        unfold check_exists at h
        rw [hv] at h
        cases h
      · rintro ⟨hok, -⟩
        cases hok
  | ok u =>
    cases u
    constructor
    · intro h
      cases h
    · unfold check_exists
      rw [hv]
      dsimp only
      exact ⟨fun hc => ⟨rfl, List.elem_iff.mp hc⟩, fun hm => List.elem_iff.mpr hm.2⟩

/-- Witness for C10: the empty name fails validation and `check_exists`
returns `False`. -/
theorem check_exists_spec_witness :
    validate_hostname [] = .error () ∧ check_exists [] stEmpty = false :=
  ⟨by rfl, (check_exists_spec [] stEmpty).1 (by rfl)⟩
